import Mathlib

/-!
Verification development for a caching DNS server (Python sources:
parse_data.py, pack_data.py, cache_dns.py, resolver_dns.py, server.py).

Shallow embedding conventions:
* Raw UDP payloads are lists of byte values (`List Nat`, entries below 256).
* Python strings are modelled as lists of Unicode code points (`List Nat`);
  for the ASCII strings handled by this program a code point is one byte,
  so `str.encode()` and `bytes.decode("ascii")` are the identity.
* Python exceptions are an explicit `PyErr` variant in an `Except` result.
* The decoder's name-reading loop can run forever on a pointer cycle, so it
  is written with explicit fuel; `PyErr.fuelOut` marks fuel exhaustion and
  is never produced by any terminating run of the Python code.
-/

/-- Python exception kinds raised by the embedded code paths. -/
inductive PyErr where
  | invalidCompressionOffset
  | invalidLabelLength
  | labelExceedsBounds
  | invalidAscii
  | unsupportedRecordType
  | structError
  | indexError
  | attributeError
  | fuelOut
deriving DecidableEq, Repr

/-- Header of a DNS packet: parse_data.py, dataclass DNSHeader. -/
structure DNSHeader where
  packet_id : Nat
  flags : Nat
  questions_count : Nat
  answers_count : Nat
  authority_count : Nat
  additional_count : Nat
deriving DecidableEq, Repr

/-- Question section entry: parse_data.py, dataclass DNSQuestion.
The dataclass performs no validation, so type and class are raw 16-bit
wire values. -/
structure DNSQuestion where
  domain : List Nat
  record_type : Nat
  record_class : Nat
deriving DecidableEq, Repr

/-- Resource record: parse_data.py, dataclass DNSResourceRecord. -/
structure DNSResourceRecord where
  domain : List Nat
  record_type : Nat
  record_class : Nat
  ttl : Nat
  data_length : Nat
  data : List Nat
deriving DecidableEq, Repr

/-- Fully parsed packet: parse_data.py, dataclass DNSPacket. The raw buffer
and the parsing cursor are handled functionally by the parser below instead
of being stored in the value. -/
structure DNSPacket where
  header : DNSHeader
  questions : List DNSQuestion
  answers : List DNSResourceRecord
  authority_records : List DNSResourceRecord
  additional_records : List DNSResourceRecord
deriving DecidableEq, Repr

/-- Big-endian 16-bit read at `pos`; used after an explicit bounds guard,
mirroring struct.unpack on a slice whose length was already checked. -/
def u16 (buf : List Nat) (pos : Nat) : Nat :=
  buf.getD pos 0 * 256 + buf.getD (pos + 1) 0

/-- Big-endian 32-bit read at `pos`. -/
def u32 (buf : List Nat) (pos : Nat) : Nat :=
  u16 buf pos * 65536 + u16 buf (pos + 2)

/-- Join a list of strings with a dot, mirroring a Python str.join with
separator "." (code point 46). -/
def joinDot : List (List Nat) → List Nat
  | [] => []
  | [l] => l
  | l :: ls => l ++ 46 :: joinDot ls

/-- Join a list of strings with a colon (code point 58). -/
def joinColon : List (List Nat) → List Nat
  | [] => []
  | [l] => l
  | l :: ls => l ++ 58 :: joinColon ls

/-- Python str.split(".") on a code-point list: always returns at least one
part, and empty parts appear around consecutive or terminal dots. -/
def splitDot : List Nat → List (List Nat)
  | [] => [[]]
  | c :: rest =>
    if c = 46 then [] :: splitDot rest
    else
      match splitDot rest with
      | h :: t => (c :: h) :: t
      | [] => [[c]]

/-- Decimal rendering of a byte value, mirroring Python str(octet). -/
def natToDec (n : Nat) : List Nat :=
  (Nat.toDigits 10 n).map (fun c => c.toNat)

/-- One lowercase hex digit (0-15), mirroring Python "%x" formatting. -/
def hexDigitCode (d : Nat) : Nat :=
  if d < 10 then 48 + d else 87 + d

/-- Four-digit zero-padded lowercase hex, mirroring Python "{:04x}".format
for values below 0x10000. -/
def hex4 (n : Nat) : List Nat :=
  [hexDigitCode (n / 4096 % 16), hexDigitCode (n / 256 % 16),
   hexDigitCode (n / 16 % 16), hexDigitCode (n % 16)]

/-- Big-endian 16-bit groups of a byte string, mirroring struct.unpack of
consecutive "!H" fields. -/
def bytesToHextets : List Nat → List Nat
  | b1 :: b2 :: rest => (b1 * 256 + b2) :: bytesToHextets rest
  | _ => []

/-- Core of DNSPacket._read_domain_name (parse_data.py lines 115-161): the
label/pointer loop. `compOff` is the saved return cursor (set the first
time a compression pointer is seen), `parts` the labels read so far. The
result is the label list together with the position at which the outer
cursor resumes. Fuel bounds the number of loop iterations; the Python loop
has no such bound and can cycle forever through compression pointers. -/
def readDomainAux (buf : List Nat) : Nat → Nat → Option Nat → List (List Nat) →
    Except PyErr (List (List Nat) × Nat)
  | 0, _, _, _ => .error .fuelOut
  | fuel + 1, pos, compOff, parts =>
    match buf.get? pos with
    | none => .error .indexError
    | some b =>
      if b &&& 192 = 192 then
        match buf.get? (pos + 1) with
        | none => .error .indexError
        | some b2 =>
          let offset := ((b &&& 63) <<< 8) ||| b2
          if buf.length ≤ offset then .error .invalidCompressionOffset
          else readDomainAux buf fuel offset (some (compOff.getD (pos + 2))) parts
      else if 63 < b then .error .invalidLabelLength
      else if b = 0 then
        match compOff with
        | some c => .ok (parts, c)
        | none => .ok (parts, pos + 1)
      else
        let labelEnd := pos + 1 + b
        if buf.length < labelEnd then .error .labelExceedsBounds
        else readDomainAux buf fuel labelEnd compOff (parts ++ [(buf.drop (pos + 1)).take b])

/-- DNSPacket._read_domain_name: run the label loop, then decode the parts
as ASCII and join them with dots. -/
def readDomainName (buf : List Nat) (pos fuel : Nat) : Except PyErr (List Nat × Nat) :=
  match readDomainAux buf fuel pos none [] with
  | .error e => .error e
  | .ok (parts, newPos) =>
    if parts.all (fun part => part.all (fun c => c < 128)) then .ok (joinDot parts, newPos)
    else .error .invalidAscii

/-- Fuel that covers every loop-free name decode inside a packet of this
size (each iteration either consumes a label byte or follows a pointer of a
non-cycling chain). -/
def nameFuel (buf : List Nat) : Nat := 2 * buf.length + 2

/-- DNSPacket._parse_header: struct.unpack("!6H", raw[:12]) fails unless the
buffer holds at least 12 bytes; the cursor then stands at 12. -/
def parseHeader (buf : List Nat) : Except PyErr DNSHeader :=
  if buf.length < 12 then .error .structError
  else .ok ⟨u16 buf 0, u16 buf 2, u16 buf 4, u16 buf 6, u16 buf 8, u16 buf 10⟩

/-- DNSPacket._parse_questions: each question is a name followed by four
bytes of type and class, which are stored unchecked. -/
def parseQuestions (buf : List Nat) : Nat → Nat → Except PyErr (List DNSQuestion × Nat)
  | 0, pos => .ok ([], pos)
  | count + 1, pos =>
    match readDomainName buf pos (nameFuel buf) with
    | .error e => .error e
    | .ok (domain, p) =>
      if buf.length < p + 4 then .error .structError
      else
        match parseQuestions buf count (p + 4) with
        | .error e => .error e
        | .ok (qs, p2) => .ok (⟨domain, u16 buf p, u16 buf (p + 2)⟩ :: qs, p2)

/-- DNSPacket._parse_record_data (parse_data.py lines 164-189). For A the
rdata slice raw[pos:pos+dlen] must have exactly dlen bytes for
struct.unpack, for AAAA exactly 2*(dlen/2) bytes; neither branch compares
dlen with the nominal size of the record type. NS and PTR read a compressed
name and ignore dlen. Unknown types raise ValueError. -/
def parseRecordData (buf : List Nat) (pos rtype dlen : Nat) : Except PyErr (List Nat × Nat) :=
  if rtype = 1 then
    let slice := (buf.drop pos).take dlen
    if slice.length = dlen then .ok (joinDot (slice.map natToDec), pos + dlen)
    else .error .structError
  else if rtype = 2 ∨ rtype = 12 then
    readDomainName buf pos (nameFuel buf)
  else if rtype = 28 then
    let slice := (buf.drop pos).take dlen
    if slice.length = 2 * (dlen / 2) then
      .ok (joinColon ((bytesToHextets slice).map hex4), pos + dlen)
    else .error .structError
  else .error .unsupportedRecordType

/-- DNSPacket._parse_record_section: a name, a ten-byte fixed part
(type, class, TTL, rdlength), then the rdata. Type, class, TTL and
rdlength are stored as raw wire values. -/
def parseRecordSection (buf : List Nat) : Nat → Nat → Except PyErr (List DNSResourceRecord × Nat)
  | 0, pos => .ok ([], pos)
  | count + 1, pos =>
    match readDomainName buf pos (nameFuel buf) with
    | .error e => .error e
    | .ok (domain, p) =>
      if buf.length < p + 10 then .error .structError
      else
        match parseRecordData buf (p + 10) (u16 buf p) (u16 buf (p + 8)) with
        | .error e => .error e
        | .ok (data, p2) =>
          match parseRecordSection buf count p2 with
          | .error e => .error e
          | .ok (rs, p3) =>
            .ok (⟨domain, u16 buf p, u16 buf (p + 2), u32 buf (p + 4), u16 buf (p + 8), data⟩ :: rs, p3)

/-- DNSPacket.__post_init__: header, questions, then the three record
sections in order. Any exception fails the whole packet. -/
def parsePacket (buf : List Nat) : Except PyErr DNSPacket :=
  match parseHeader buf with
  | .error e => .error e
  | .ok hdr =>
    match parseQuestions buf hdr.questions_count 12 with
    | .error e => .error e
    | .ok (qs, p1) =>
      match parseRecordSection buf hdr.answers_count p1 with
      | .error e => .error e
      | .ok (ans, p2) =>
        match parseRecordSection buf hdr.authority_count p2 with
        | .error e => .error e
        | .ok (auth, p3) =>
          match parseRecordSection buf hdr.additional_count p3 with
          | .error e => .error e
          | .ok (add, _) => .ok ⟨hdr, qs, ans, auth, add⟩

/-- Big-endian 16-bit serialisation, mirroring struct.pack("!H", n) for
in-range values. -/
def pack16 (n : Nat) : List Nat := [n / 256 % 256, n % 256]

/-- create_error_response (pack_data.py lines 6-15): the first two request
bytes followed by struct.pack("!5H", (1 << 15) | (4 << 8), 0, 0, 0, 0). -/
def createErrorResponse (requestId : List Nat) : List Nat :=
  requestId ++ pack16 ((1 <<< 15) ||| (4 <<< 8)) ++
    pack16 0 ++ pack16 0 ++ pack16 0 ++ pack16 0

/-- encode_domain_name's loop body over the label list, together with the
final zero byte (pack_data.py lines 74-87). struct.pack("!B", n) fails for
label lengths above 255. Returns (total_length, encoded bytes). -/
def encodeLabels : List (List Nat) → Except PyErr (Nat × List Nat)
  | [] => .ok (1, [0])
  | l :: ls =>
    if 255 < l.length then .error .structError
    else
      match encodeLabels ls with
      | .error e => .error e
      | .ok (t, e) => .ok (t + (l.length + 1), (l.length :: l) ++ e)

/-- encode_domain_name: split the dotted string and emit length-prefixed
labels followed by a zero byte. -/
def encodeDomainName (domain : List Nat) : Except PyErr (Nat × List Nat) :=
  encodeLabels (splitDot domain)

/-- build_query_packet (pack_data.py lines 90-110): header with flags
0x0100 and qdcount 1, then the encoded question. -/
def buildQueryPacket (queryId : Nat) (domain : List Nat) (rtype rclass : Nat) :
    Except PyErr (List Nat) :=
  match encodeDomainName domain with
  | .error e => .error e
  | .ok (_, enc) =>
    .ok (pack16 queryId ++ pack16 256 ++ pack16 1 ++ pack16 0 ++ pack16 0 ++ pack16 0 ++
      enc ++ pack16 rtype ++ pack16 rclass)

/-- Lookup in a Python dict modelled as an insertion-ordered association
list: the first binding of the key, if any. -/
def assocGet {κ α : Type} [BEq κ] : List (κ × α) → κ → Option α
  | [], _ => none
  | (k, v) :: rest, key => if k == key then some v else assocGet rest key

/-- Python dict item assignment: replace the binding in place, or append a
new binding at the end. -/
def assocSet {κ α : Type} [BEq κ] : List (κ × α) → κ → α → List (κ × α)
  | [], key, val => [(key, val)]
  | (k, v) :: rest, key, val =>
    if k == key then (key, val) :: rest else (k, v) :: assocSet rest key val

/-- Python dict.pop(key) restricted to its effect on the mapping. -/
def assocRemove {κ α : Type} [BEq κ] : List (κ × α) → κ → List (κ × α)
  | [], _ => []
  | (k, v) :: rest, key => if k == key then rest else (k, v) :: assocRemove rest key

/-- A cache entry: insertion time (in whole seconds) and the record list. -/
abbrev CacheEntry := Nat × List DNSResourceRecord

/-- The inner per-domain map from query type to entry. -/
abbrev CacheInner := List (Nat × CacheEntry)

/-- DNSCache.cache_data: domain, then query type, then entry. -/
abbrev CacheData := List (List Nat × CacheInner)

/-- DNSCache._records_expired (cache_dns.py lines 79-84). The Python code
computes (datetime.now() - cached_time).seconds, which is the seconds field
of the timedelta, i.e. the real elapsed seconds modulo 86400 (one day);
it then reports expiry when any record's TTL is at most that value. -/
def recordsExpired (now ts : Nat) (records : List DNSResourceRecord) : Bool :=
  records.any (fun r => r.ttl ≤ (now - ts) % 86400)

/-- DNSCache._remove_expired_records (cache_dns.py lines 72-77): drop the
type binding and, if the domain's inner map became empty, the domain. -/
def removeExpiredRecords (c : CacheData) (d : List Nat) (t : Nat) : CacheData :=
  match assocGet c d with
  | none => c
  | some inner =>
    let inner2 := assocRemove inner t
    if inner2.isEmpty then assocRemove c d else assocSet c d inner2

/-- DNSCache.get_records (cache_dns.py lines 50-61): on a present entry,
evict and miss if expired, otherwise return the stored record list. The
returned map is the cache after the call. -/
def getRecords (c : CacheData) (d : List Nat) (t now : Nat) :
    Option (List DNSResourceRecord) × CacheData :=
  match assocGet c d with
  | none => (none, c)
  | some inner =>
    match assocGet inner t with
    | none => (none, c)
    | some (ts, records) =>
      if recordsExpired now ts records then (none, removeExpiredRecords c d t)
      else (some records, c)

/-- DNSCache.add_records (cache_dns.py lines 36-48): create the domain's
inner map if missing, then store (now, records) only when the type is not
yet bound. -/
def addRecords (c : CacheData) (now : Nat) (d : List Nat) (t : Nat)
    (records : List DNSResourceRecord) : CacheData :=
  let c1 := if (assocGet c d).isNone then assocSet c d [] else c
  match assocGet c1 d with
  | none => c1
  | some inner =>
    if (assocGet inner t).isNone then assocSet c1 d (assocSet inner t (now, records))
    else c1

/-- Attribute names looked up on a DNSCache instance by the embedded code
paths. -/
inductive AttrName where
  | cacheFileAttr
  | cacheDataAttr
  | cleanupThreadAttr
  | lockAttr
  | bufferAttr
  | pathAttr
  | saveAttr
  | closeAttr
  | initializeCacheAttr
  | startCleanupAttr
  | addRecordsAttr
  | getRecordsAttr
  | saveCacheAttr
  | shutdownAttr
deriving DecidableEq, Repr

/-- Values an attribute lookup on a DNSCache instance can produce. -/
inductive PyAttrValue where
  | strVal : List Nat → PyAttrValue
  | mapVal : CacheData → PyAttrValue
  | threadVal
  | lockVal
  | methodVal : AttrName → PyAttrValue
deriving Repr

/-- The state of a DNSCache instance: exactly the data attributes assigned
in DNSCache.__init__ (cache_file and cache_data; the thread and lock carry
no modelled state). -/
structure DNSCacheObj where
  cache_file : List Nat
  cache_data : CacheData

/-- Python attribute resolution on a DNSCache instance: the instance
attributes assigned in __init__ plus the methods of the class body.
Any other name raises AttributeError (returns none). -/
def dnsCacheGetattr (o : DNSCacheObj) (name : AttrName) : Option PyAttrValue :=
  match name with
  | .cacheFileAttr => some (.strVal o.cache_file)
  | .cacheDataAttr => some (.mapVal o.cache_data)
  | .cleanupThreadAttr => some .threadVal
  | .lockAttr => some .lockVal
  | .initializeCacheAttr => some (.methodVal name)
  | .startCleanupAttr => some (.methodVal name)
  | .addRecordsAttr => some (.methodVal name)
  | .getRecordsAttr => some (.methodVal name)
  | .saveCacheAttr => some (.methodVal name)
  | .shutdownAttr => some (.methodVal name)
  | .bufferAttr => none
  | .pathAttr => none
  | .saveAttr => none
  | .closeAttr => none

/-- DNSCache.save_cache (cache_dns.py lines 86-90): the body is
pickle.dump(self.buffer, open(self.path, "wb"), ...). Python resolves
self.buffer (the first argument) before any file is opened, then
self.path; neither attribute is ever assigned, so the lookup raises. The
ok branch stands for a completed dump and is shown to be unreachable. -/
def saveCache (o : DNSCacheObj) : Except PyErr Unit :=
  match dnsCacheGetattr o .bufferAttr with
  | none => .error .attributeError
  | some _ =>
    match dnsCacheGetattr o .pathAttr with
    | none => .error .attributeError
    | some _ => .ok ()

/-- Server._close, cache part (server.py lines 125-133): it calls
self._cacher.save() and then self._cacher.close(); DNSCache defines
neither method (they are named save_cache and shutdown). -/
def serverCloseCacher (o : DNSCacheObj) : Except PyErr Unit :=
  match dnsCacheGetattr o .saveAttr with
  | none => .error .attributeError
  | some _ =>
    match dnsCacheGetattr o .closeAttr with
    | none => .error .attributeError
    | some _ => .ok ()

/-- A Python value that is either a list of records or a single record;
Server._process_question can produce both shapes on its return paths. -/
inductive PyListOrRec where
  | listOf : List DNSResourceRecord → PyListOrRec
  | single : DNSResourceRecord → PyListOrRec
deriving DecidableEq, Repr

/-- Server._process_question (server.py lines 87-123). The `resolve`
oracle abstracts DNSResolver.recursive_resolve applied to the built query
bytes: outer none is a raised exception (caught, yielding []), inner none
is a None result. On a cache hit the code returns cached_records[1], the
element at index 1 of the record list get_records already returned
(IndexError when the list is shorter). On a miss with a non-empty answer
list the answers are inserted into the cache and returned. -/
def processQuestion (resolve : List Nat → Option (Option DNSPacket))
    (c : CacheData) (now packetId : Nat) (q : DNSQuestion) :
    Except PyErr (PyListOrRec × CacheData) :=
  match getRecords c q.domain q.record_type now with
  | (some cachedRecords, c2) =>
    match cachedRecords.get? 1 with
    | some r => .ok (.single r, c2)
    | none => .error .indexError
  | (none, c2) =>
    match buildQueryPacket packetId q.domain q.record_type ( DNSQuestion.record_class q) with
    | .error e => .error e
    | .ok qRequest =>
      match resolve qRequest with
      | some (some answer) =>
        if answer.answers.isEmpty then .ok (.listOf [], c2)
        else .ok (.listOf answer.answers,
          addRecords c2 now q.domain q.record_type answer.answers)
      | _ => .ok (.listOf [], c2)

/-- DNSResolver configuration (resolver_dns.py dataclass). The `reply`
oracle abstracts _query_dns_server followed by DNSPacket parsing: given
query bytes, target ip and port it yields the decoded upstream response.
Timeouts and decode failures are outside the oracle because the claims
settled here exercise only well-formed upstream responses. -/
structure DNSResolver where
  root_server_ip : List Nat
  root_server_port : Nat
  reply : List Nat → List Nat → Nat → DNSPacket

/-- Result of a fuelled resolver run: none is fuel exhaustion (the real,
unbounded recursion would still be running), otherwise the Python outcome
(an exception, None, or a packet). Every Python call consumes one fuel
unit, so any terminating Python execution is reproduced by all
sufficiently large fuels. -/
abbrev ResolveResult := Option (Except PyErr (Option DNSPacket))

mutual

/-- DNSResolver.recursive_resolve (resolver_dns.py lines 21-42): falsy ip
and port arguments fall back to the configured root; a response with
answers is returned, one with authority records is handed to the referral
walk, anything else is a miss. -/
def recursiveResolve (r : DNSResolver) (fuel : Nat) (dnsQuery : List Nat)
    (targetIpOpt : Option (List Nat)) (targetPort : Nat) : ResolveResult :=
  match fuel with
  | 0 => none
  | fuel + 1 =>
    let ip := match targetIpOpt with
      | none => r.root_server_ip
      | some s => if s.isEmpty then r.root_server_ip else s
    let port := if targetPort = 0 then r.root_server_port else targetPort
    let responsePacket := r.reply dnsQuery ip port
    if 0 < responsePacket.header.answers_count then some (.ok (some responsePacket))
    else if 0 < responsePacket.header.authority_count then
      handleAuthoritativeRecords r fuel dnsQuery responsePacket
        responsePacket.authority_records
    else some (.ok none)

/-- DNSResolver._handle_authoritative_records (resolver_dns.py lines
44-64): for each authority record, the first additional record of type A
is used as glue and resolution restarts against its address; with no glue
the NS name is resolved from the root and the first address, if any, is
used; otherwise the next authority record is tried. -/
def handleAuthoritativeRecords (r : DNSResolver) (fuel : Nat) (dnsQuery : List Nat)
    (responsePacket : DNSPacket) (auths : List DNSResourceRecord) : ResolveResult :=
  match fuel with
  | 0 => none
  | fuel + 1 =>
    match auths with
    | [] => some (.ok none)
    | authRecord :: rest =>
      match responsePacket.additional_records.find? (fun ar => ar.record_type == 1) with
      | some additionalRecord =>
        recursiveResolve r fuel dnsQuery (some additionalRecord.data) 53
      | none =>
        match resolveNameToIps r fuel responsePacket.header.packet_id authRecord.data with
        | none => none
        | some (.error e) => some (.error e)
        | some (.ok (some (ip :: _))) => recursiveResolve r fuel dnsQuery (some ip) 53
        | some (.ok _) => handleAuthoritativeRecords r fuel dnsQuery responsePacket rest

/-- DNSResolver._resolve_name_to_ips (resolver_dns.py lines 66-82): build
an A/IN query for the name, resolve it from the root, and collect the
answer rdata strings; a miss is None. -/
def resolveNameToIps (r : DNSResolver) (fuel : Nat) (queryId : Nat)
    (domainName : List Nat) : Option (Except PyErr (Option (List (List Nat)))) :=
  match fuel with
  | 0 => none
  | fuel + 1 =>
    match buildQueryPacket queryId domainName 1 1 with
    | .error e => some (.error e)
    | .ok query =>
      match recursiveResolve r fuel query none 53 with
      | none => none
      | some (.error e) => some (.error e)
      | some (.ok (some response)) =>
        some (.ok (some (response.answers.map (fun a => a.data))))
      | some (.ok none) => some (.ok none)

end

/-- The ip string 1.2.3.4 as code points. -/
def selfIp : List Nat := [49, 46, 50, 46, 51, 46, 52]

/-- The NS name used by the synthetic self-referral upstream. -/
def selfNsName : List Nat := [110, 115]

/-- A referral response that points back at the same server: no answers,
one NS authority record and one additional A record whose address is the
server itself. -/
def selfReferralPacket : DNSPacket :=
  ⟨⟨1, 0, 0, 0, 1, 1⟩, [], [],
   [⟨[99, 111, 109], 2, 1, 3600, 4, selfNsName⟩],
   [⟨selfNsName, 1, 1, 3600, 4, selfIp⟩]⟩

/-- A resolver whose upstream always responds with the self-referral. -/
def selfResolver : DNSResolver :=
  ⟨selfIp, 53, fun _ _ _ => selfReferralPacket⟩

/-- A sample A record (domain "a", address 1.2.3.4, TTL 3600 seconds). -/
def recA : DNSResourceRecord := ⟨[97], 1, 1, 3600, 4, selfIp⟩

/-- A cache holding one fresh entry: domain "ab", type A, inserted at
second 0, with the single record recA. -/
def cacheAB : CacheData := [([97, 98], [(1, (0, [recA]))])]

/-- The question "ab" A IN. -/
def questionAB : DNSQuestion := ⟨[97, 98], 1, 1⟩

theorem splitDot_ne_nil (s : List Nat) : splitDot s ≠ [] := by
  cases s with
  | nil => simp [splitDot]
  | cons c rest =>
    simp only [splitDot]
    split
    · simp
    · cases h : splitDot rest <;> simp

theorem joinDot_splitDot (s : List Nat) : joinDot (splitDot s) = s := by
  induction s with
  | nil => rfl
  | cons c rest ih =>
    by_cases hc : c = 46
    · subst hc
      simp only [splitDot, if_pos rfl]
      cases h : splitDot rest with
      | nil => exact absurd h (splitDot_ne_nil rest)
      | cons a t =>
        rw [h] at ih
        simpa [joinDot] using ih
    · simp only [splitDot, if_neg hc]
      cases h : splitDot rest with
      | nil => exact absurd h (splitDot_ne_nil rest)
      | cons a t =>
        rw [h] at ih
        cases t with
        | nil => simpa [joinDot] using congrArg (fun x => c :: x) ih
        | cons b t2 => simpa [joinDot] using congrArg (fun x => c :: x) ih

theorem encodeLabels_length (ls : List (List Nat)) (t : Nat) (e : List Nat)
    (h : encodeLabels ls = .ok (t, e)) : ls.length < e.length := by
  induction ls generalizing t e with
  | nil =>
    simp [encodeLabels] at h
    simp [← h.2]
  | cons l ls ih =>
    simp only [encodeLabels] at h
    split at h
    · simp at h
    · cases henc : encodeLabels ls with
      | error e2 => rw [henc] at h; simp at h
      | ok pe =>
        rw [henc] at h
        simp at h
        have := ih pe.1 pe.2 (by rw [henc])
        simp [← h.2]
        omega

theorem encodeLabels_isOk (ls : List (List Nat)) (h : ∀ l ∈ ls, l.length ≤ 255) :
    ∃ t e, encodeLabels ls = .ok (t, e) := by
  induction ls with
  | nil => exact ⟨1, [0], rfl⟩
  | cons l ls ih =>
    obtain ⟨t, e, he⟩ := ih (fun x hx => h x (by simp [hx]))
    refine ⟨t + (l.length + 1), (l.length :: l) ++ e, ?_⟩
    have hl : ¬ 255 < l.length := by
      have := h l (by simp)
      omega
    simp [encodeLabels, hl, he]

theorem readDomainAux_encode (ls : List (List Nat)) :
    ∀ (t : Nat) (e : List Nat), encodeLabels ls = .ok (t, e) →
    (∀ l ∈ ls, 1 ≤ l.length ∧ l.length ≤ 63) →
    ∀ (done : List Nat) (parts : List (List Nat)) (fuel : Nat), ls.length < fuel →
    readDomainAux (done ++ e) fuel done.length none parts =
      .ok (parts ++ ls, done.length + e.length) := by
  induction ls with
  | nil =>
    intro t e henc _ done parts fuel hfuel
    simp [encodeLabels] at henc
    rw [← henc.2]
    match fuel, hfuel with
    | fuel + 1, _ =>
      have hget : (done ++ [0]).get? done.length = some 0 := by
        rw [List.get?_append_right (Nat.le_refl _)]
        simp
      simp [readDomainAux, hget]
  | cons l ls ih =>
    intro t e henc hl done parts fuel hfuel
    simp only [encodeLabels] at henc
    split at henc
    · simp at henc
    · cases hrec : encodeLabels ls with
      | error e2 => rw [hrec] at henc; simp at henc
      | ok pe =>
        rw [hrec] at henc
        simp at henc
        obtain ⟨hlab1, hlab63⟩ := hl l (by simp)
        match fuel, hfuel with
        | fuel + 1, hfuel =>
          rw [← henc.2]
          have hget : (done ++ l.length :: (l ++ pe.2)).get? done.length =
              some l.length := by
            rw [List.get?_append_right (Nat.le_refl _)]
            simp
          have hnoptr : ¬ l.length &&& 192 = 192 := by
            have hle : l.length &&& 192 ≤ l.length := Nat.and_le_left
            omega
          have hlen0 : ¬ l.length = 0 := by omega
          have hlen63 : ¬ 63 < l.length := by omega
          have hbound : ¬ (done ++ l.length :: (l ++ pe.2)).length <
              done.length + 1 + l.length := by
            simp
            omega
          have hslice : (((done ++ l.length :: (l ++ pe.2)).drop (done.length + 1)).take
              l.length) = l := by
            have hbuf : done ++ l.length :: (l ++ pe.2) =
                (done ++ [l.length]) ++ (l ++ pe.2) := by simp
            have h1 : done.length + 1 = (done ++ [l.length]).length := by simp
            rw [hbuf, h1, List.drop_left, List.take_left]
          have hstep : readDomainAux (done ++ l.length :: (l ++ pe.2)) fuel
              (done.length + 1 + l.length) none (parts ++ [l]) =
              .ok ((parts ++ [l]) ++ ls, (done ++ l.length :: l).length + pe.2.length) := by
            have h2 : done ++ l.length :: (l ++ pe.2) =
                (done ++ l.length :: l) ++ pe.2 := by simp
            have h3 : done.length + 1 + l.length = (done ++ l.length :: l).length := by
              simp
              omega
            rw [h2, h3]
            exact ih pe.1 pe.2 (by rw [hrec]) (fun x hx => hl x (by simp [hx]))
              (done ++ l.length :: l) (parts ++ [l]) fuel (by simp at hfuel; omega)
          simp only [readDomainAux]
          rw [hget]
          simp only [if_neg hnoptr, if_neg hlen63, if_neg hlen0, if_neg hbound, hslice]
          rw [hstep]
          simp
          omega

/-- C10: for every domain string whose dot-separated labels each consist of
1 to 63 ASCII characters, reading a domain name from the byte sequence
produced by encode_domain_name (placed at the start of a packet) yields
back the original string. -/
theorem c10_encode_then_decode_identity (domain : List Nat)
    (h : ∀ l ∈ splitDot domain, 1 ≤ l.length ∧ l.length ≤ 63 ∧ ∀ c ∈ l, c < 128) :
    ∃ t e, encodeDomainName domain = .ok (t, e) ∧
      readDomainName e 0 (e.length + 1) = .ok (domain, e.length) := by
  obtain ⟨t, e, henc⟩ := encodeLabels_isOk (splitDot domain)
    (fun l hl => Nat.le_trans (h l hl).2.1 (by omega))
  refine ⟨t, e, henc, ?_⟩
  have hlen := encodeLabels_length _ _ _ henc
  have hrun := readDomainAux_encode (splitDot domain) t e henc
    (fun l hl => ⟨(h l hl).1, (h l hl).2.1⟩) [] [] (e.length + 1) (by omega)
  simp only [List.nil_append, List.length_nil, Nat.zero_add] at hrun
  unfold readDomainName
  rw [hrun]
  have hascii : (splitDot domain).all (fun part => part.all (fun c => c < 128)) = true := by
    rw [List.all_eq_true]
    intro part hp
    rw [List.all_eq_true]
    intro c hc
    exact decide_eq_true ((h part hp).2.2 c hc)
  simp [hascii, joinDot_splitDot]

/-- C10 witness: the domain "ab.c". -/
theorem c10_encode_then_decode_identity_w :
    ∃ t e, encodeDomainName [97, 98, 46, 99] = .ok (t, e) ∧
      readDomainName e 0 (e.length + 1) = .ok ([97, 98, 46, 99], e.length) :=
  c10_encode_then_decode_identity [97, 98, 46, 99] (by decide)

/-- C1: the error response is always the id bytes plus ten fixed bytes (so
12 bytes for a 2-byte id), but its flags word is 0x8400 (QR=1, AA=1,
RCODE=0), not the 0x8004 (QR=1, RCODE=4) the claim states: the code shifts
the RCODE value 4 into bits 8-11 instead of the low four bits. -/
theorem c1_error_response_flags :
    (∀ requestId : List Nat, (createErrorResponse requestId).length = requestId.length + 10) ∧
    createErrorResponse [171, 205] = [171, 205, 132, 0, 0, 0, 0, 0, 0, 0, 0, 0] ∧
    createErrorResponse [171, 205] ≠ [171, 205, 128, 4, 0, 0, 0, 0, 0, 0, 0, 0] :=
  ⟨fun requestId => by simp [createErrorResponse, pack16], by decide, by decide⟩

/-- C2: against an upstream that always returns a referral to itself, the
resolver never terminates: for every fuel bound the fuelled model runs out
of fuel, so no depth cap (16 or otherwise) makes it report a miss. -/
theorem c2_resolver_unbounded_referral :
    ∀ fuel dnsQuery ipOpt port,
      recursiveResolve selfResolver fuel dnsQuery ipOpt port = none := by
  intro fuel
  induction fuel using Nat.strong_induction_on with
  | _ fuel ih =>
    match fuel with
    | 0 => intro q ip port; rfl
    | 1 => intro q ip port; rfl
    | (f + 2) =>
      intro q ip port
      exact ih f (by omega) q (some selfIp) 53

/-- C3: on a cache hit the server returns cached_records[1] instead of the
cached record sequence: with a fresh single-record entry the question
handler raises IndexError (caught upstream as an error response) rather
than yielding the stored list. -/
theorem c3_cache_hit_returns_element_one :
    getRecords cacheAB [97, 98] 1 5 = (some [recA], cacheAB) ∧
    processQuestion (fun _ => none) cacheAB 5 4660 questionAB = .error .indexError :=
  ⟨rfl, rfl⟩

/-- C4: persist never serialises anything and its failure propagates: the
save path reads the attributes buffer and path, which no DNSCache instance
has, so it raises AttributeError for every cache state; the server's
shutdown path additionally calls the nonexistent methods save and close. -/
theorem c4_persist_raises_attribute_error (o : DNSCacheObj) :
    saveCache o = .error .attributeError ∧ serverCloseCacher o = .error .attributeError :=
  ⟨rfl, rfl⟩

/-- C5 counterexample: a name starting with a pointer whose 14-bit target 3
is greater than the current byte position 0 decodes successfully to "a"
instead of failing the packet as the claim requires. -/
theorem c5_forward_pointer_followed :
    [192, 3, 0, 1, 97, 0].get? 0 = some 192 ∧
    ((192 &&& 63) <<< 8) ||| 3 = 3 ∧
    ¬ (3 : Nat) < 0 ∧
    readDomainName [192, 3, 0, 1, 97, 0] 0 10 = .ok ([97], 2) :=
  ⟨rfl, rfl, by omega, rfl⟩

/-- C5 amended: when the decoder meets a compression pointer it fails the
packet exactly when the 14-bit target is at least the packet length, and
otherwise jumps to the target; the current byte position plays no role, so
forward and self pointers are followed. -/
theorem c5_pointer_check_is_length (buf : List Nat) (pos fuel : Nat)
    (compOff : Option Nat) (parts : List (List Nat)) (b b2 : Nat)
    (hb : buf.get? pos = some b) (hptr : b &&& 192 = 192)
    (hb2 : buf.get? (pos + 1) = some b2) :
    (buf.length ≤ ((b &&& 63) <<< 8) ||| b2 →
      readDomainAux buf (fuel + 1) pos compOff parts = .error .invalidCompressionOffset) ∧
    (((b &&& 63) <<< 8) ||| b2 < buf.length →
      readDomainAux buf (fuel + 1) pos compOff parts =
        readDomainAux buf fuel (((b &&& 63) <<< 8) ||| b2)
          (some (compOff.getD (pos + 2))) parts) := by
  rw [List.get?_eq_getElem?] at hb hb2
  constructor <;> intro hoff
  · simp [readDomainAux, hb, hptr, hb2, hoff]
  · simp [readDomainAux, hb, hptr, hb2, Nat.not_le.mpr hoff]

/-- C5 amended witness: a pointer to offset 2 inside a 3-byte buffer is
dereferenced, a pointer to offset 9 fails the packet. -/
theorem c5_pointer_check_is_length_w :
    readDomainAux [192, 2, 0] 6 0 none [] = readDomainAux [192, 2, 0] 5 2 (some 2) [] ∧
    readDomainAux [192, 9, 0] 6 0 none [] = .error .invalidCompressionOffset :=
  ⟨(c5_pointer_check_is_length [192, 2, 0] 0 5 none [] 192 2 rfl (by decide) rfl).2
      (by decide),
   (c5_pointer_check_is_length [192, 9, 0] 0 5 none [] 192 9 rfl (by decide) rfl).1
      (by decide)⟩

/-- C6: the freshness check uses the seconds field of the timedelta, i.e.
elapsed time modulo 86400: an entry with minimum TTL 3600 read 86401
seconds after insertion is still served and kept, although the claim
requires a miss and eviction once the elapsed time reaches the TTL. -/
theorem c6_expiry_wraps_after_one_day :
    recordsExpired 86401 0 [recA] = false ∧
    getRecords cacheAB [97, 98] 1 86401 = (some [recA], cacheAB) ∧
    recA.ttl ≤ 86401 - 0 :=
  ⟨rfl, rfl, by decide⟩

/-- C7 counterexample: a question with type 15 (MX, unsupported) and class
255 parses successfully; the decoder does not fail the packet. -/
theorem c7_unknown_question_type_accepted :
    parsePacket [18, 52, 0, 0, 0, 1, 0, 0, 0, 0, 0, 0, 1, 97, 0, 0, 15, 0, 255] =
      .ok ⟨⟨4660, 0, 1, 0, 0, 0⟩, [⟨[97], 15, 255⟩], [], [], []⟩ := by rfl

set_option maxRecDepth 16384 in
/-- C7 amended: only resource-record type values are validated: rdata
parsing fails for any type outside {1, 2, 12, 28}, while a question's type
and class fields accept every 16-bit value (and classes are never checked
anywhere). -/
theorem c7_only_record_types_checked (t : Nat)
    (h : ¬(t = 1 ∨ t = 2 ∨ t = 12 ∨ t = 28)) :
    (∀ buf pos dlen, parseRecordData buf pos t dlen = .error .unsupportedRecordType) ∧
    (∀ b1 b2 b3 b4,
      parsePacket [18, 52, 0, 0, 0, 1, 0, 0, 0, 0, 0, 0, 1, 97, 0, b1, b2, b3, b4] =
        .ok ⟨⟨4660, 0, 1, 0, 0, 0⟩, [⟨[97], b1 * 256 + b2, b3 * 256 + b4⟩], [], [], []⟩) := by
  push_neg at h
  constructor
  · intro buf pos dlen
    simp [parseRecordData, h.1, h.2.1, h.2.2.1, h.2.2.2]
  · intro b1 b2 b3 b4
    rfl

/-- C7 amended witness: type 15 rdata fails; a question with arbitrary
type and class bytes is accepted. -/
theorem c7_only_record_types_checked_w :
    parseRecordData [] 0 15 0 = .error .unsupportedRecordType ∧
    parsePacket [18, 52, 0, 0, 0, 1, 0, 0, 0, 0, 0, 0, 1, 97, 0, 9, 9, 9, 9] =
      .ok ⟨⟨4660, 0, 1, 0, 0, 0⟩, [⟨[97], 9 * 256 + 9, 9 * 256 + 9⟩], [], [], []⟩ :=
  ⟨(c7_only_record_types_checked 15 (by decide)).1 [] 0 0,
   (c7_only_record_types_checked 15 (by decide)).2 9 9 9 9⟩

/-- C8 counterexample: an A record with rdlength 3 decodes successfully to
the three-octet string "10.20.30"; the packet is not failed. -/
theorem c8_a_record_rdlength_three_accepted :
    parsePacket [0, 0, 0, 0, 0, 0, 0, 1, 0, 0, 0, 0, 1, 97, 0, 0, 1, 0, 1, 0, 0, 0,
        60, 0, 3, 10, 20, 30] =
      .ok ⟨⟨0, 0, 0, 1, 0, 0⟩, [],
        [⟨[97], 1, 1, 60, 3, [49, 48, 46, 50, 48, 46, 51, 48]⟩], [], []⟩ := by rfl

/-- C8 amended: rdata decoding never compares rdlength with the nominal
size of the type: an A record is accepted with any rdlength whose bytes
are in the buffer (yielding that many dot-joined octets), and an AAAA
record with any even such rdlength; only an odd AAAA rdlength fails. -/
theorem c8_rdlength_unchecked (buf : List Nat) (pos dlen : Nat)
    (h : pos + dlen ≤ buf.length) :
    parseRecordData buf pos 1 dlen =
      .ok (joinDot (((buf.drop pos).take dlen).map natToDec), pos + dlen) ∧
    (dlen % 2 = 0 → parseRecordData buf pos 28 dlen =
      .ok (joinColon ((bytesToHextets ((buf.drop pos).take dlen)).map hex4), pos + dlen)) ∧
    (dlen % 2 = 1 → parseRecordData buf pos 28 dlen = .error .structError) := by
  have hslice : ((buf.drop pos).take dlen).length = dlen := by
    simp [List.length_take, List.length_drop]
    omega
  refine ⟨?_, ?_, ?_⟩
  · simp [parseRecordData, hslice]
  · intro he
    have : dlen = 2 * (dlen / 2) := by omega
    simp [parseRecordData, hslice, ← this]
  · intro ho
    have : ¬ dlen = 2 * (dlen / 2) := by omega
    simp [parseRecordData, hslice, this]

/-- C8 amended witness: at rdlength 3 with three bytes available, A
decodes and AAAA fails with a struct error. -/
theorem c8_rdlength_unchecked_w :
    parseRecordData [10, 20, 30] 0 1 3 =
      .ok (joinDot ((([10, 20, 30].drop 0).take 3).map natToDec), 0 + 3) ∧
    parseRecordData [10, 20, 30] 0 28 3 = .error .structError :=
  ⟨(c8_rdlength_unchecked [10, 20, 30] 0 3 (by decide)).1,
   (c8_rdlength_unchecked [10, 20, 30] 0 3 (by decide)).2.2 (by decide)⟩

/-- C9: inserting over an existing (domain, type) entry leaves the whole
two-level map unchanged: the stored timestamp and records are those of the
first insertion and no other slot moves. -/
theorem c9_add_records_existing_noop (c : CacheData) (now : Nat) (d : List Nat)
    (t : Nat) (rs : List DNSResourceRecord) (inner : CacheInner) (e : CacheEntry)
    (h1 : assocGet c d = some inner) (h2 : assocGet inner t = some e) :
    addRecords c now d t rs = c := by
  simp [addRecords, h1, h2]

/-- C9 witness: re-inserting over the existing entry of a one-entry cache
changes nothing. -/
theorem c9_add_records_existing_noop_w :
    addRecords [([97, 98], [(1, (5, [recA]))])] 99 [97, 98] 1 [] =
      [([97, 98], [(1, (5, [recA]))])] :=
  c9_add_records_existing_noop _ 99 [97, 98] 1 [] [(1, (5, [recA]))] (5, [recA]) rfl rfl
